import Mathlib

/-!
# Verification of the interactive HGF dashboard

A shallow embedding of the two source files of the repository:

* `plot.py` — the `plot_trajectories` function, which turns the trajectory
  dataframe of a fitted HGF model into a column of linked bokeh figures;
* `app/main.py` — the bokeh application: four sliders, a dropdown, the
  `fit_hgf` / `on_change` callbacks and the root layout.

External libraries are modelled abstractly: pandas dataframes become an
association list of named columns of rationals, bokeh figures become a record
of their configured properties and renderers, and the pyhgf fitting engine is
an arbitrary function from the model configuration and input data to a
trajectory dataframe and a global surprise value.  Python exceptions (missing
columns, reads of unbound names, empty-series indexing) are modelled by the
`Option` monad.  Object identity of bokeh ranges — which is what links the
charts — is modelled by an allocation counter: every freshly constructed range
gets a fresh id, and passing an existing range object copies it, id included.
Floating point square root and rounding are kept abstract in a `NumPrims`
record of numeric primitives over `ℚ`.
-/

/-- A pandas dataframe, as used by `plot.py`: a list of named columns. -/
structure Trajectories where
  cols : List (String × List ℚ)
deriving DecidableEq, Repr

/-- Column access `df["name"]` / `df.name`; `none` models the Python
`KeyError` / `AttributeError` on a missing column. -/
def Trajectories.col (df : Trajectories) (name : String) : Option (List ℚ) :=
  (df.cols.find? (fun c => c.1 == name)).map Prod.snd

/-- Substring test, modelling `pandas.Series.str.contains` for a plain
(non-regex) pattern. -/
def strContains (s pat : String) : Bool :=
  s.toList.tails.any (fun t => pat.toList.isPrefixOf t)

/-- Source: `n_nodes = trajectories_df.columns.str.contains("_muhat").sum()`
(plot.py line 45). -/
def nNodes (df : Trajectories) : ℕ :=
  df.cols.countP (fun c => strContains c.1 "_muhat")

/-- The iteration sequence of `for i in range(n_nodes, 0, -1)`
(plot.py line 52). -/
def downIdxs (n : ℕ) : List ℕ :=
  (List.range n).map (fun k => n - k)

/-- The palette `bokeh.palettes.Dark2_5`. -/
def Dark2_5 : List String :=
  ["#1b9e77", "#d95f02", "#7570b3", "#e7298a", "#66a61e"]

/-- Source: `next(palette)` where `palette = itertools.cycle(Dark2_5)`: the colour of
the `k`-th loop iteration. -/
def paletteColor (k : ℕ) : String :=
  Dark2_5.getD (k % 5) ""

/-- The per-node figure title. -/
def nodeTitle (k : ℕ) : String := s!"Node {k}"

/-- A bokeh range object (`Range1d` or a default data range).  The `id` field
models Python object identity: two figures are linked exactly when their
ranges carry the same id. -/
structure RangeRef where
  id : ℕ
  startB : Option ℚ
  endB : Option ℚ
deriving DecidableEq, Repr

/-- A `bokeh.models.RangeTool` together with the overlay properties set on it
(plot.py lines 191–193). -/
structure RangeToolM where
  x_range : RangeRef
  overlay_fill_color : Option String
  overlay_fill_alpha : Option ℚ
deriving DecidableEq, Repr

/-- A glyph renderer added to a figure; `none` fields are properties the call
site leaves at the bokeh default. -/
inductive Renderer where
  | lineR (x y : List ℚ) (line_color : Option String) (line_width : Option ℚ)
      (y_range_name : Option String)
  | circleR (x y : List ℚ) (size : Option ℚ) (legend_label : Option String)
      (fill_color : Option String) (line_color : Option String) (alpha : Option ℚ)
      (edgecolors : Option String)
  | vareaR (x y1 y2 : List ℚ) (fill_color : Option String) (alpha : Option ℚ)
      (y_range_name : Option String)
deriving DecidableEq, Repr

/-- Is this renderer a circle glyph (the raw-observation scatter)? -/
def Renderer.isCircle : Renderer → Bool
  | .circleR _ _ _ _ _ _ _ _ => true
  | _ => false

/-- A bokeh figure: the properties configured by `plot.py` plus the renderers,
extra y-ranges, extra axes and tools added to it. -/
structure Figure where
  title : String
  sizing_mode : Option String
  height : ℚ
  x_axis_label : Option String
  y_axis_label : Option String
  output_backend : Option String
  x_range : RangeRef
  y_range : RangeRef
  y_axis_type_none : Bool
  background_fill_color : Option String
  renderers : List Renderer
  extra_y_ranges : List (String × RangeRef)
  right_layouts : List (String × String)
  tools : List RangeToolM
  active_multi : Option RangeToolM
deriving DecidableEq, Repr

/-- Append a renderer to a figure (a `figure.line/circle/varea` call). -/
def Figure.addR (f : Figure) (r : Renderer) : Figure :=
  { f with renderers := f.renderers ++ [r] }

/-- Models `pandas.Series.min` on a nonempty series (the empty case is junk, as the
source never evaluates it on data the claims touch). -/
def listMin : List ℚ → ℚ
  | [] => 0
  | h :: t => t.foldl min h

/-- Models `pandas.Series.max`, as `listMin`. -/
def listMax : List ℚ → ℚ
  | [] => 0
  | h :: t => t.foldl max h

/-- Python `int(...)` truncation toward zero on a rational. -/
def intTrunc (q : ℚ) : ℤ :=
  if 0 ≤ q then ⌊q⌋ else ⌈q⌉

/-- The numeric primitives the source takes from numpy / Python floats:
`np.sqrt` and `round(·, 2)`.  Kept abstract over `ℚ`. -/
structure NumPrims where
  sqrtQ : ℚ → ℚ
  round2 : ℚ → ℚ

/-- The HGF model configuration, i.e. the keyword arguments of the `HGF(...)`
constructor used in `app/main.py`. -/
structure HGFConfig where
  n_levels : ℕ
  model_type : String
  initial_mu : List (String × ℚ)
  initial_pi : List (String × ℚ)
  omega : List (String × ℚ)
  rho : List (String × ℚ)
  kappas : List (String × ℚ)
  verbose : Bool
deriving DecidableEq, Repr

/-- A fitted HGF model as `plot_trajectories` sees it: its configuration, the
dataframe `hgf.to_pandas()` returns, and the value of `hgf.surprise()`.  The
fitting itself is external (pyhgf). -/
structure HGF where
  cfg : HGFConfig
  traj : Trajectories
  surpriseVal : ℚ
deriving DecidableEq, Repr

/-- The attribute `hgf.model_type` stored by the constructor. -/
def HGF.model_type (h : HGF) : String := h.cfg.model_type

/-- The trajectory dataframe `hgf.to_pandas()`. -/
def HGF.to_pandas (h : HGF) : Trajectories := h.traj

/-- The `x_range` keyword of the per-node `figure(...)` call (plot.py line 68):
`level_plot.x_range if len(cols) != 0 else (time.iloc[0], time.iloc[-1])`.
`prev` is the current binding of the Python local `level_plot` (`none` when the
name is not yet bound, so reading it is a `NameError`, i.e. `none`); the tuple
branch allocates a fresh range from the first and last time stamps. -/
def xRangeFor (cols : List Figure) (prev : Option Figure) (ctr : ℕ)
    (timeS : List ℚ) : Option (RangeRef × ℕ) :=
  if cols.length ≠ 0 then
    prev.map (fun p => (p.x_range, ctr))
  else do
    let t0 ← timeS.head?
    let t1 ← timeS.getLast?
    pure ({ id := ctr, startB := some t0, endB := some t1 }, ctr + 1)

/-- The input-node scatter (plot.py lines 73–94): on node 1 only, the raw
observations are drawn, with continuous- and binary-specific styling. -/
def inputCircle (mt : String) (df : Trajectories) (i : ℕ) (timeS : List ℚ)
    (fig : Figure) : Option Figure :=
  if i = 1 then
    if mt = "continuous" then do
      let obs ← df.col "observation"
      pure (fig.addR (.circleR timeS obs (some 2) (some "Input")
        (some "#2a2a2a") (some "#2a2a2a") (some (1/2)) none))
    else if mt = "binary" then do
      let obs ← df.col "observation"
      pure (fig.addR (.circleR timeS obs (some 10) (some "Input")
        (some "#4c72b0") (some "grey") (some (2/5)) (some "k")))
    else pure fig
  else pure fig

/-- The confidence band (plot.py lines 107–122): when `ci` is true and the
node is not the first level of a binary model, a `varea` from
`muhat - sd` to `muhat + sd` with `sd = sqrt(1 / pihat)`, and the figure's
`y_range` is replaced by a fresh `Range1d` over the band's extrema. -/
def ciBand (np : NumPrims) (ci : Bool) (mt : String) (i : ℕ)
    (timeS mu piS : List ℚ) (color : String) (ctr : ℕ) (fig : Figure) :
    Figure × ℕ :=
  if ci = true then
    if ¬ (mt = "binary" ∧ i = 1) then
      let sd := piS.map (fun p => np.sqrtQ (1 / p))
      let y1 := List.zipWith (fun a b => a - b) mu sd
      let y2 := List.zipWith (fun a b => a + b) mu sd
      let fig := fig.addR (.vareaR timeS y1 y2 (some color) (some (2/5)) none)
      ({ fig with y_range :=
          { id := ctr, startB := some (listMin y1), endB := some (listMax y2) } },
        ctr + 1)
    else (fig, ctr)
  else (fig, ctr)

/-- The per-node surprise overlay (plot.py lines 125–146): a fresh extra
y-range named "surprise", a surprise line and area on it, and a `LinearAxis`
added on the right. -/
def surpriseOverlay (df : Trajectories) (sur : Bool) (i : ℕ) (timeS : List ℚ)
    (ctr : ℕ) (fig : Figure) : Option (Figure × ℕ) :=
  if sur = true then do
    let sS ← df.col (s!"node_{i}_surprise")
    let fig := { fig with extra_y_ranges := fig.extra_y_ranges ++
        [("surprise",
          ({ id := ctr, startB := some (listMin sS), endB := some (listMax sS) } : RangeRef))] }
    let fig := fig.addR (.lineR timeS sS (some "#2a2a2a") (some (1/2))
      (some "surprise"))
    let fig := fig.addR (.vareaR timeS sS (sS.map (fun _ => listMin sS))
      (some "#7f7f7f") (some (1/5)) (some "surprise"))
    let fig := { fig with right_layouts := fig.right_layouts ++ [("surprise", "Surprise")] }
    pure (fig, ctr + 1)
  else pure (fig, ctr)

/-- One iteration of the node loop of `plot_trajectories`
(plot.py lines 52–148): extract the sufficient statistics, build the node
figure, draw the input scatter, the mean line, the confidence band and the
surprise overlay. -/
def nodeFigure (np : NumPrims) (mt : String) (df : Trajectories)
    (ci sur : Bool) (figsize : ℚ) (i : ℕ) (cols : List Figure)
    (prev : Option Figure) (ctr : ℕ) : Option (Figure × ℕ) := do
  let mu ← df.col (s!"node_{i}_muhat")
  let piS ← df.col (s!"node_{i}_pihat")
  let timeS ← df.col "time"
  let color := paletteColor cols.length
  let xc ← xRangeFor cols prev ctr timeS
  let fig : Figure := {
    title := s!"Node {i}", sizing_mode := some "stretch_width",
    height := figsize, x_axis_label := some "Time", y_axis_label := some "Input",
    output_backend := some "webgl", x_range := xc.1,
    y_range := { id := xc.2, startB := none, endB := none },
    y_axis_type_none := false, background_fill_color := none,
    renderers := [], extra_y_ranges := [], right_layouts := [],
    tools := [], active_multi := none }
  let ctr2 := xc.2 + 1
  let fig ← inputCircle mt df i timeS fig
  let fig := fig.addR (.lineR timeS mu (some color) (some (1/2)) none)
  let cb := ciBand np ci mt i timeS mu piS color ctr2 fig
  let fc ← surpriseOverlay df sur i timeS cb.2 cb.1
  pure fc

/-- The node loop, accumulating `cols` and the binding of the Python local
`level_plot` (`prev`). -/
def plotLoop (np : NumPrims) (mt : String) (df : Trajectories) (ci sur : Bool)
    (figsize : ℚ) : List ℕ → List Figure → Option Figure → ℕ →
    Option (List Figure × Option Figure × ℕ)
  | [], cols, prev, ctr => pure (cols, prev, ctr)
  | i :: rest, cols, prev, ctr => do
    let fc ← nodeFigure np mt df ci sur figsize i cols prev ctr
    plotLoop np mt df ci sur figsize rest (cols ++ [fc.1]) (some fc.1) fc.2

/-- The global surprise figure (plot.py lines 152–173): titled with the
rounded global surprise, sharing `level_plot.x_range`, with the global
surprise drawn as an area then a line. -/
def mkSurprisePlot (np : NumPrims) (figsize sv : ℚ) (lp : Figure) (ctr : ℕ)
    (timeS surS : List ℚ) : Figure :=
  let f : Figure := {
    title := "Global surprise: " ++ toString (np.round2 sv),
    sizing_mode := some "stretch_width", height := figsize,
    x_axis_label := some "Time", y_axis_label := some "Surprise",
    output_backend := some "webgl", x_range := lp.x_range,
    y_range := { id := ctr, startB := none, endB := none },
    y_axis_type_none := false, background_fill_color := none,
    renderers := [], extra_y_ranges := [], right_layouts := [],
    tools := [], active_multi := none }
  let f := f.addR (.vareaR timeS surS (surS.map (fun _ => listMin surS))
    (some "#7f7f7f") (some (1/5)) none)
  f.addR (.lineR timeS surS (some "#2a2a2a") (some (1/2)) none)

/-- The range-selection strip (plot.py lines 178–200): its own fresh default
x-range, `level_plot.y_range` shared, no y axis, the observations drawn with
default styling, and a `RangeTool` over `surprise_plot.x_range` added and made
the active multi tool. -/
def mkSelect (figsize : ℚ) (lp sp : Figure) (ctr : ℕ)
    (timeS obsS : List ℚ) : Figure :=
  let f : Figure := {
    title := "Select the time range", sizing_mode := some "stretch_width",
    height := ((intTrunc (figsize * (2/5)) : ℤ) : ℚ),
    x_axis_label := none, y_axis_label := none,
    output_backend := some "webgl",
    x_range := { id := ctr, startB := none, endB := none },
    y_range := lp.y_range,
    y_axis_type_none := true, background_fill_color := some "#efefef",
    renderers := [], extra_y_ranges := [], right_layouts := [],
    tools := [], active_multi := none }
  let rt : RangeToolM := {
    x_range := sp.x_range,
    overlay_fill_color := some "navy", overlay_fill_alpha := some (1/5) }
  let f := f.addR (.lineR timeS obsS none none none)
  { f with tools := f.tools ++ [rt], active_multi := some rt }

/-- Source: `plot_trajectories` (plot.py lines 11–202).  The result is the list of
figures of the returned bokeh column (node figures in descending node order,
the global surprise figure, and — when `slider` is true — the range-selection
strip) together with the final range-allocation counter.  `none` models an
unhandled Python exception. -/
def plot_trajectories (np : NumPrims) (hgf : HGF) (ci sur : Bool)
    (figsize : ℚ) (slider : Bool) (ctr : ℕ) : Option (List Figure × ℕ) := do
  let trajectories_df := hgf.to_pandas
  let lpc ← plotLoop np hgf.model_type trajectories_df ci sur
    figsize (downIdxs (nNodes trajectories_df)) [] none ctr
  let cols := lpc.1
  let level_plot ← lpc.2.1
  let timeS ← trajectories_df.col "time"
  let surS ← trajectories_df.col "surprise"
  let sp := mkSurprisePlot np figsize hgf.surpriseVal level_plot lpc.2.2 timeS surS
  let c2 := lpc.2.2 + 1
  if slider = true then do
    let obsS ← trajectories_df.col "observation"
    pure (cols ++ [sp] ++ [mkSelect figsize level_plot sp c2 timeS obsS], c2 + 1)
  else
    pure (cols ++ [sp], c2)

/-! ## The bokeh application (`app/main.py`) -/

/-- A node of the bokeh document tree: widgets, figures, rows and columns. -/
inductive UINode where
  | divN (text : String) (width height : ℕ)
  | sliderN (title : String) (start stop value step : ℚ)
  | dropdownN (label : String) (menu : List (String × String))
  | figN (f : Figure)
  | rowN (children : List UINode)
  | colN (children : List UINode)
deriving Repr

namespace App

/-- Source: `timeseries = load_data("continuous")` (main.py line 11), over an abstract
sample-data accessor. -/
def timeseries (load_data : String → List ℚ) : List ℚ :=
  load_data "continuous"

/-- The dropdown menu (main.py line 17). -/
def menu : List (String × String) :=
  [("Binary", "binary"), ("Continuous", "continuous")]

/-- Source: `dropdown = Dropdown(label="Model type", menu=menu)` (main.py line 18). -/
def dropdown : UINode := .dropdownN "Model type" menu

/-- Widget `slider1` (main.py line 21). -/
def slider1 : UINode := .sliderN "Omega 1" (-20) 5 (-4) (1/10)

/-- Widget `slider2` (main.py line 22). -/
def slider2 : UINode := .sliderN "Omega 2" (-20) 5 (-4) (1/10)

/-- Widget `slider3` (main.py line 23). -/
def slider3 : UINode := .sliderN "Mu 1" (-20) 20 (104/100) (1/10)

/-- Widget `slider4` (main.py line 24). -/
def slider4 : UINode := .sliderN "Mu 2" (-20) 20 0 (1/10)

end App

/-- The `.value` attribute of a slider widget. -/
def UINode.valueQ : UINode → ℚ
  | .sliderN _ _ _ v _ => v
  | _ => 0

/-- The `.start` attribute of a slider widget. -/
def UINode.startQ : UINode → ℚ
  | .sliderN _ s _ _ _ => s
  | _ => 0

/-- The `.end` attribute of a slider widget. -/
def UINode.stopQ : UINode → ℚ
  | .sliderN _ _ e _ _ => e
  | _ => 0

/-- The `.step` attribute of a slider widget. -/
def UINode.stepQ : UINode → ℚ
  | .sliderN _ _ _ _ st => st
  | _ => 0

/-- The `.title` attribute of a slider widget. -/
def UINode.titleS : UINode → String
  | .sliderN t _ _ _ _ => t
  | _ => ""

namespace App

/-- The `HGF(...)` constructor call inside `fit_hgf` (main.py lines 29–36):
everything but the omega and initial-mu entries is a fixed constant. -/
def hgfConfig (omega1 omega2 mu1 mu2 : ℚ) : HGFConfig :=
  { n_levels := 2, model_type := "continuous",
    initial_mu := [("1", mu1), ("2", mu2)],
    initial_pi := [("1", 100), ("2", 10)],
    omega := [("1", omega1), ("2", omega2)],
    rho := [("1", 0), ("2", 0)],
    kappas := [("1", 1)],
    verbose := false }

/-- Source: `fit_hgf` (main.py lines 28–37): build the HGF with the slider-supplied
parameters, feed it the time series, and plot the trajectories.  `runHGF`
abstracts the external pyhgf fitting engine (`.input_data`, `.to_pandas`,
`.surprise`). -/
def fit_hgf (np : NumPrims) (runHGF : HGFConfig → List ℚ → Trajectories × ℚ)
    (ts : List ℚ) (omega1 omega2 mu1 mu2 : ℚ) : Option UINode :=
  let cfg := hgfConfig omega1 omega2 mu1 mu2
  let fitted := runHGF cfg ts
  let hgf : HGF := { cfg := cfg, traj := fitted.1, surpriseVal := fitted.2 }
  (plot_trajectories np hgf true true 200 true 0).map
    (fun p => UINode.colN (p.1.map UINode.figN))

/-- The reactive state of the running application: the four slider values,
the dropdown state, and the children of the root layout. -/
structure AppState where
  slider1Val : ℚ
  slider2Val : ℚ
  slider3Val : ℚ
  slider4Val : ℚ
  dropdownVal : Option String
  children : List UINode

/-- Source: `on_change` (main.py lines 40–41): re-fit with the current values of all
four sliders and assign the result to `layout.children[2]`.  The boolean
records whether an exception escaped the callback; in that case the state is
returned untouched, since the assignment only happens after `fit_hgf`
returns. -/
def on_change (np : NumPrims) (runHGF : HGFConfig → List ℚ → Trajectories × ℚ)
    (ts : List ℚ) (attrname : String) (old new : ℚ) (st : AppState) :
    AppState × Bool :=
  match fit_hgf np runHGF ts st.slider1Val st.slider2Val st.slider3Val st.slider4Val with
  | some c => ({ st with children := st.children.set 2 c }, false)
  | none => (st, true)

/-- The `widget.on_change('value', on_change)` registrations
(main.py lines 43–46): widget name, attribute, handler. -/
def widgetRegistrations : List (String × String × String) :=
  [("slider1", "value", "on_change"), ("slider2", "value", "on_change"),
   ("slider3", "value", "on_change"), ("slider4", "value", "on_change")]

/-- The title `Div` (main.py lines 51–57). -/
def div : UINode :=
  .divN "\n        <h1>The Hierarchical Gaussian Filter</h1>\n        " 900 60

/-- Source: `app_title = div` (main.py line 59). -/
def app_title : UINode := div

/-- Source: `widgets = column(row(slider1, slider2), row(slider3, slider4))`
(main.py lines 60–63). -/
def widgets : UINode :=
  .colN [.rowN [slider1, slider2], .rowN [slider3, slider4]]

/-- The root `layout` (main.py lines 64–70): title, widgets, and the plot
column of the initial fit at the sliders' initial values.  `none` models the
application failing to start because the initial fit raised. -/
def layout (np : NumPrims) (runHGF : HGFConfig → List ℚ → Trajectories × ℚ)
    (load_data : String → List ℚ) : Option UINode :=
  (fit_hgf np runHGF (timeseries load_data)
      slider1.valueQ slider2.valueQ slider3.valueQ slider4.valueQ).map
    (fun c => UINode.colN [app_title, widgets, c])

/-- Source: `curdoc().title` (main.py line 74). -/
def docTitle : String := "The Hierarchical Gaussian Filter"

end App

/-! ## Concrete instances used to witness the theorems -/

/-- Concrete numeric primitives for witnesses (the theorems are parametric in
them). -/
def np0 : NumPrims := { sqrtQ := fun q => q, round2 := fun q => q }

/-- A concrete two-node trajectory dataframe of the shape pyhgf produces. -/
def df2 : Trajectories := { cols := [
  ("time", [0, 1, 2]),
  ("observation", [1, 2, 1]),
  ("surprise", [1, 1, 2]),
  ("node_1_muhat", [1, 2, 3]),
  ("node_1_pihat", [1, 1, 1]),
  ("node_1_surprise", [1, 2, 1]),
  ("node_2_muhat", [0, 1, 0]),
  ("node_2_pihat", [1, 2, 1]),
  ("node_2_surprise", [0, 1, 1])] }

/-- A concrete fitted continuous two-level model over `df2`. -/
def hgf2 : HGF :=
  { cfg := App.hgfConfig (-4) (-4) 1 0, traj := df2, surpriseVal := 3 }

/-- A one-node trajectory dataframe for the binary counterexample. -/
def dfB : Trajectories := { cols := [
  ("time", [0, 1]),
  ("observation", [0, 1]),
  ("surprise", [1, 1]),
  ("node_1_muhat", [0, 1]),
  ("node_1_pihat", [1, 1]),
  ("node_1_surprise", [1, 1])] }

/-- The configuration of a binary two-level model. -/
def hgfBcfg : HGFConfig :=
  { n_levels := 2, model_type := "binary",
    initial_mu := [("1", 0), ("2", 0)], initial_pi := [("1", 100), ("2", 10)],
    omega := [("1", -4), ("2", -4)], rho := [("1", 0), ("2", 0)],
    kappas := [("1", 1)], verbose := false }

/-- A fitted binary model over `dfB`. -/
def hgfB : HGF :=
  { cfg := hgfBcfg, traj := dfB, surpriseVal := 1 }

/-- An empty dataframe: no column matches `_muhat`, so `n_nodes = 0`. -/
def dfE : Trajectories := { cols := [] }

/-- A degenerate fitted model whose trajectory dataframe is empty. -/
def hgfE : HGF :=
  { cfg := App.hgfConfig 0 0 0 0, traj := dfE, surpriseVal := 0 }

/-- A fitting engine for witnesses: ignores its inputs and returns `df2`. -/
def run2 : HGFConfig → List ℚ → Trajectories × ℚ := fun _ _ => (df2, 3)

/-- A fitting engine whose output dataframe is empty, so that the plotting —
and hence `fit_hgf` — raises. -/
def runE : HGFConfig → List ℚ → Trajectories × ℚ := fun _ _ => (dfE, 0)

/-- A concrete sample-data accessor. -/
def loadData0 : String → List ℚ := fun _ => [1, 2, 1]

/-- Does a figure carry a plain confidence-band `varea` (one drawn against the
default y-range, as the uncertainty band is, rather than against the
"surprise" range)? -/
def hasCiBand (f : Figure) : Bool :=
  f.renderers.any (fun r => match r with
    | .vareaR _ _ _ _ _ none => true
    | _ => false)

/-- The figure list of a `plot_trajectories` result (empty on failure). -/
def figsOf (o : Option (List Figure × ℕ)) : List Figure :=
  (o.map Prod.fst).getD []

/-- The final counter of a `plot_trajectories` result (zero on failure). -/
def ctrOf (o : Option (List Figure × ℕ)) : ℕ :=
  (o.map Prod.snd).getD 0

/-- The column of a `fit_hgf` result (an empty column on failure). -/
def uiOf (o : Option UINode) : UINode :=
  o.getD (UINode.colN [])

/-- A concrete application state at the sliders' initial values, with the
root layout's three children. -/
def stA : App.AppState :=
  { slider1Val := -4, slider2Val := -4, slider3Val := 1, slider4Val := 0,
    dropdownVal := none,
    children := [App.app_title, App.widgets, App.dropdown] }

/-- The same state with a different dropdown state. -/
def stB : App.AppState :=
  { slider1Val := -4, slider2Val := -4, slider3Val := 1, slider4Val := 0,
    dropdownVal := some "binary",
    children := [App.app_title, App.widgets, App.dropdown] }

/-- The model fitted at startup (main.py lines 67–69): the `HGF` built by
`fit_hgf` at the sliders' initial values, fed the startup time series. -/
def App.initialModel (runHGF : HGFConfig → List ℚ → Trajectories × ℚ)
    (load_data : String → List ℚ) : HGF :=
  { cfg := App.hgfConfig App.slider1.valueQ App.slider2.valueQ
      App.slider3.valueQ App.slider4.valueQ,
    traj := (runHGF (App.hgfConfig App.slider1.valueQ App.slider2.valueQ
      App.slider3.valueQ App.slider4.valueQ) (App.timeseries load_data)).1,
    surpriseVal := (runHGF (App.hgfConfig App.slider1.valueQ App.slider2.valueQ
      App.slider3.valueQ App.slider4.valueQ) (App.timeseries load_data)).2 }

/-! ## Lemmas about the per-node helpers -/

/-- What one `inputCircle` call adds: only circle glyphs, only on node 1, and
on a continuous model exactly the raw-observation scatter; everything else on
the figure is untouched. -/
theorem inputCircle_spec (mt : String) (df : Trajectories) (i : ℕ) (timeS : List ℚ)
    (fig g : Figure) (h : inputCircle mt df i timeS fig = some g) :
    g.title = fig.title ∧ g.x_range = fig.x_range ∧ g.y_range = fig.y_range ∧
    g.extra_y_ranges = fig.extra_y_ranges ∧ g.right_layouts = fig.right_layouts ∧
    ∃ rs, g.renderers = fig.renderers ++ rs ∧
      (∀ r ∈ rs, r.isCircle = true) ∧ (i ≠ 1 → rs = []) ∧
      (i = 1 → mt = "continuous" → ∃ obsS, df.col "observation" = some obsS ∧
        rs = [.circleR timeS obsS (some 2) (some "Input") (some "#2a2a2a")
          (some "#2a2a2a") (some (1/2)) none]) := by
  unfold inputCircle at h
  split at h
  · rename_i hi
    split at h
    · rename_i hmt
      simp only [Option.bind_eq_bind, Option.bind_eq_some, Option.pure_def,
        Option.some.injEq] at h
      obtain ⟨obs, hobs, hg⟩ := h
      subst hg
      refine ⟨rfl, rfl, rfl, rfl, rfl, [_], rfl, ?_, ?_, ?_⟩
      · intro r hr
        simp only [List.mem_singleton] at hr
        subst hr
        rfl
      · intro hne; exact absurd hi hne
      · intro _ _; exact ⟨obs, hobs, rfl⟩
    · split at h
      · rename_i hmt hmtb
        simp only [Option.bind_eq_bind, Option.bind_eq_some, Option.pure_def,
          Option.some.injEq] at h
        obtain ⟨obs, hobs, hg⟩ := h
        subst hg
        refine ⟨rfl, rfl, rfl, rfl, rfl, [_], rfl, ?_, ?_, ?_⟩
        · intro r hr
          simp only [List.mem_singleton] at hr
          subst hr
          rfl
        · intro hne; exact absurd hi hne
        · intro _ hc; exact absurd hc hmt
      · rename_i hmt hmtb
        simp only [Option.pure_def, Option.some_inj] at h
        subst h
        refine ⟨rfl, rfl, rfl, rfl, rfl, [], by simp, by simp, fun _ => rfl, ?_⟩
        intro _ hc; exact absurd hc hmt
  · rename_i hi
    simp only [Option.pure_def, Option.some_inj] at h
    subst h
    refine ⟨rfl, rfl, rfl, rfl, rfl, [], by simp, by simp, fun _ => rfl, ?_⟩
    intro h1; exact absurd h1 hi

/-- What one `ciBand` call adds: no circles, and — when `ci` holds and the
node is not the first level of a binary model — the uncertainty band from
`muhat - sd` to `muhat + sd` with `sd = sqrt(1 / pihat)`. -/
theorem ciBand_spec (np : NumPrims) (ci : Bool) (mt : String) (i : ℕ)
    (timeS mu piS : List ℚ) (color : String) (ctr : ℕ) (fig : Figure) :
    (ciBand np ci mt i timeS mu piS color ctr fig).1.title = fig.title ∧
    (ciBand np ci mt i timeS mu piS color ctr fig).1.x_range = fig.x_range ∧
    (ciBand np ci mt i timeS mu piS color ctr fig).1.extra_y_ranges = fig.extra_y_ranges ∧
    (ciBand np ci mt i timeS mu piS color ctr fig).1.right_layouts = fig.right_layouts ∧
    (∃ rs, (ciBand np ci mt i timeS mu piS color ctr fig).1.renderers = fig.renderers ++ rs ∧
      ∀ r ∈ rs, r.isCircle = false) ∧
    (ci = true → ¬ (mt = "binary" ∧ i = 1) →
      Renderer.vareaR timeS
        (List.zipWith (fun a b => a - b) mu (piS.map (fun p => np.sqrtQ (1 / p))))
        (List.zipWith (fun a b => a + b) mu (piS.map (fun p => np.sqrtQ (1 / p))))
        (some color) (some (2/5)) none ∈
          (ciBand np ci mt i timeS mu piS color ctr fig).1.renderers) := by
  unfold ciBand
  split
  · split
    · rename_i hc hnb
      refine ⟨rfl, rfl, rfl, rfl, ⟨[_], rfl, ?_⟩, ?_⟩
      · intro r hr
        simp only [List.mem_singleton] at hr
        subst hr
        rfl
      · intro _ _
        simp [Figure.addR]
    · rename_i hc hnb
      refine ⟨rfl, rfl, rfl, rfl, ⟨[], by simp, by simp⟩, ?_⟩
      intro _ hn
      exact absurd hn hnb
  · rename_i hc
    refine ⟨rfl, rfl, rfl, rfl, ⟨[], by simp, by simp⟩, ?_⟩
    intro hcc
    exact absurd hcc hc

/-- What one `surpriseOverlay` call adds: no circles and, when `surprise`
holds, the surprise line and area on the extra "surprise" y-range together
with the right-hand `LinearAxis`. -/
theorem surpriseOverlay_spec (df : Trajectories) (sur : Bool) (i : ℕ)
    (timeS : List ℚ) (ctr : ℕ) (fig : Figure) (g : Figure) (c' : ℕ)
    (h : surpriseOverlay df sur i timeS ctr fig = some (g, c')) :
    g.title = fig.title ∧ g.x_range = fig.x_range ∧
    (∃ rs, g.renderers = fig.renderers ++ rs ∧ ∀ r ∈ rs, r.isCircle = false) ∧
    (∀ e ∈ fig.extra_y_ranges, e ∈ g.extra_y_ranges) ∧
    (∀ e ∈ fig.right_layouts, e ∈ g.right_layouts) ∧
    (sur = true → ∃ sS, df.col (s!"node_{i}_surprise") = some sS ∧
      Renderer.lineR timeS sS (some "#2a2a2a") (some (1/2)) (some "surprise") ∈ g.renderers ∧
      Renderer.vareaR timeS sS (sS.map (fun _ => listMin sS)) (some "#7f7f7f")
        (some (1/5)) (some "surprise") ∈ g.renderers ∧
      ("surprise", "Surprise") ∈ g.right_layouts ∧
      ∃ rr, ("surprise", rr) ∈ g.extra_y_ranges) := by
  unfold surpriseOverlay at h
  split at h
  · rename_i hs
    simp only [Option.bind_eq_bind, Option.bind_eq_some, Option.pure_def,
      Option.some.injEq, Prod.mk.injEq] at h
    obtain ⟨sS, hsS, hg, hc⟩ := h
    subst hg
    refine ⟨rfl, rfl, ⟨[Renderer.lineR timeS sS (some "#2a2a2a") (some (1/2)) (some "surprise"),
      Renderer.vareaR timeS sS (sS.map (fun _ => listMin sS)) (some "#7f7f7f")
        (some (1/5)) (some "surprise")], by simp [Figure.addR], ?_⟩, ?_, ?_, ?_⟩
    · intro r hr
      simp only [List.mem_cons, List.mem_singleton, List.not_mem_nil, or_false] at hr
      rcases hr with hr | hr <;> (subst hr; rfl)
    · intro e he
      simp [Figure.addR, List.mem_append, he]
    · intro e he
      simp [Figure.addR, List.mem_append, he]
    · intro _
      refine ⟨sS, hsS, ?_, ?_, ?_, ?_⟩
      · simp [Figure.addR]
      · simp [Figure.addR]
      · simp [Figure.addR]
      · refine ⟨{ id := ctr, startB := some (listMin sS), endB := some (listMax sS) }, ?_⟩
        simp [Figure.addR]
  · simp only [Option.pure_def, Option.some.injEq, Prod.mk.injEq] at h
    obtain ⟨hg, hc⟩ := h
    subst hg
    rename_i hs
    refine ⟨rfl, rfl, ⟨[], by simp, by simp⟩, fun e he => he, fun e he => he, ?_⟩
    intro hss
    exact absurd hss hs

/-- Everything the claims need about one successful node-loop iteration: the
column lookups it performed, the figure title, the x-range sharing with the
previous `level_plot`, and the renderers guaranteed on the figure. -/
theorem nodeFigure_spec (np : NumPrims) (mt : String) (df : Trajectories)
    (ci sur : Bool) (figsize : ℚ) (i : ℕ) (cols : List Figure)
    (prev : Option Figure) (ctr : ℕ) (fig : Figure) (ctr' : ℕ)
    (h : nodeFigure np mt df ci sur figsize i cols prev ctr = some (fig, ctr')) :
    ∃ mu piS timeS,
      df.col (s!"node_{i}_muhat") = some mu ∧
      df.col (s!"node_{i}_pihat") = some piS ∧
      df.col "time" = some timeS ∧
      fig.title = s!"Node {i}" ∧
      (cols.length ≠ 0 → ∃ p, prev = some p ∧ fig.x_range = p.x_range) ∧
      Renderer.lineR timeS mu (some (paletteColor cols.length)) (some (1/2)) none ∈ fig.renderers ∧
      (ci = true → ¬ (mt = "binary" ∧ i = 1) →
        Renderer.vareaR timeS
          (List.zipWith (fun a b => a - b) mu (piS.map (fun p => np.sqrtQ (1 / p))))
          (List.zipWith (fun a b => a + b) mu (piS.map (fun p => np.sqrtQ (1 / p))))
          (some (paletteColor cols.length)) (some (2/5)) none ∈ fig.renderers) ∧
      (sur = true → ∃ sS, df.col (s!"node_{i}_surprise") = some sS ∧
        Renderer.lineR timeS sS (some "#2a2a2a") (some (1/2)) (some "surprise") ∈ fig.renderers ∧
        Renderer.vareaR timeS sS (sS.map (fun _ => listMin sS)) (some "#7f7f7f")
          (some (1/5)) (some "surprise") ∈ fig.renderers ∧
        ("surprise", "Surprise") ∈ fig.right_layouts ∧
        ∃ rr, ("surprise", rr) ∈ fig.extra_y_ranges) ∧
      (∀ r ∈ fig.renderers, r.isCircle = true → i = 1) ∧
      (i = 1 → mt = "continuous" → ∃ obsS, df.col "observation" = some obsS ∧
        Renderer.circleR timeS obsS (some 2) (some "Input") (some "#2a2a2a")
          (some "#2a2a2a") (some (1/2)) none ∈ fig.renderers) := by
  unfold nodeFigure at h
  simp only [Option.bind_eq_bind, Option.bind_eq_some, Option.pure_def,
    Option.some.injEq] at h
  obtain ⟨mu, hmu, piS, hpi, timeS, htime, xc, hxc, g1, hg1, fc, hfc, hfin⟩ := h
  obtain ⟨gf, cf⟩ := fc
  simp only [Prod.mk.injEq] at hfin
  obtain ⟨hgf, hcf⟩ := hfin
  subst hgf
  obtain ⟨ht1, hx1, hy1, he1, hr1, rsC, hrsC, hCircAll, hCircNe, hCircCont⟩ :=
    inputCircle_spec mt df i timeS _ g1 hg1
  obtain ⟨ht2, hx2, he2, hr2, ⟨rsB, hrsB, hBnone⟩, hBand⟩ :=
    ciBand_spec np ci mt i timeS mu piS (paletteColor cols.length) (xc.2 + 1)
      (g1.addR (.lineR timeS mu (some (paletteColor cols.length)) (some (1/2)) none))
  obtain ⟨ht3, hx3, ⟨rsS, hrsS, hSnone⟩, heMem, hrMem, hSur⟩ :=
    surpriseOverlay_spec df sur i timeS _ _ gf cf hfc
  refine ⟨mu, piS, timeS, hmu, hpi, htime, ?_, ?_, ?_, ?_, ?_, ?_, ?_⟩
  · rw [ht3, ht2, Figure.addR, ht1]
  · intro hlen
    unfold xRangeFor at hxc
    rw [if_pos hlen] at hxc
    simp only [Option.map_eq_some'] at hxc
    obtain ⟨p, hp, hxcv⟩ := hxc
    refine ⟨p, hp, ?_⟩
    rw [hx3, hx2, Figure.addR, hx1]
    subst hxcv
    rfl
  · rw [hrsS, hrsB]
    simp [Figure.addR]
  · intro hci hnb
    rw [hrsS]
    simp only [List.mem_append]
    exact Or.inl (hBand hci hnb)
  · intro hs
    obtain ⟨sS, hsS, hm1, hm2, hm3, rr, hm4⟩ := hSur hs
    exact ⟨sS, hsS, hm1, hm2, hm3, rr, hm4⟩
  · intro r hr hcirc
    rw [hrsS, hrsB] at hr
    simp only [List.mem_append] at hr
    rcases hr with (hr | hr) | hr
    · rw [Figure.addR] at hr
      simp only [List.mem_append, List.mem_singleton] at hr
      rcases hr with hr | hr
      · rw [hrsC] at hr
        simp only [List.mem_append, List.not_mem_nil, false_or] at hr
        by_contra hne
        rw [hCircNe hne] at hr
        exact absurd hr (List.not_mem_nil r)
      · subst hr
        exact absurd hcirc (by simp [Renderer.isCircle])
    · rw [hBnone r hr] at hcirc
      exact absurd hcirc (by simp)
    · rw [hSnone r hr] at hcirc
      exact absurd hcirc (by simp)
  · intro hi hmt
    obtain ⟨obsS, hobs, hrs⟩ := hCircCont hi hmt
    refine ⟨obsS, hobs, ?_⟩
    rw [hrsS, hrsB]
    simp only [List.mem_append]
    refine Or.inl (Or.inl ?_)
    rw [Figure.addR]
    simp only [List.mem_append, List.mem_singleton]
    refine Or.inl ?_
    rw [hrsC, hrs]
    simp

/-- Characterisation of a successful node loop: it appends one figure per
index, each produced by a successful `nodeFigure` call at accumulator length
equal to its position, and leaves `level_plot` bound to the last figure. -/
theorem plotLoop_chars (np : NumPrims) (mt : String) (df : Trajectories)
    (ci sur : Bool) (figsize : ℚ) :
    ∀ (idxs : List ℕ) (cols : List Figure) (prev : Option Figure) (ctr : ℕ)
      (out : List Figure × Option Figure × ℕ),
      plotLoop np mt df ci sur figsize idxs cols prev ctr = some out →
      ∃ nf : List Figure, out.1 = cols ++ nf ∧ nf.length = idxs.length ∧
        (∀ j, j < idxs.length → ∃ ic fg cP pP c1 c2,
          idxs.get? j = some ic ∧ nf.get? j = some fg ∧
          nodeFigure np mt df ci sur figsize ic cP pP c1 = some (fg, c2) ∧
          cP.length = cols.length + j) ∧
        (idxs = [] → out.2.1 = prev ∧ nf = []) ∧
        (idxs ≠ [] → ∃ lf, out.2.1 = some lf ∧ nf.getLast? = some lf) := by
  intro idxs
  induction idxs with
  | nil =>
    intro cols prev ctr out h
    simp only [plotLoop, Option.pure_def, Option.some.injEq] at h
    subst h
    refine ⟨[], by simp, rfl, ?_, fun _ => ⟨rfl, rfl⟩, fun hne => absurd rfl hne⟩
    intro j hj
    exact absurd hj (by simp)
  | cons i rest ih =>
    intro cols prev ctr out h
    simp only [plotLoop, Option.bind_eq_bind, Option.bind_eq_some] at h
    obtain ⟨fc, hfc, hrest⟩ := h
    obtain ⟨nf', h1, h2, h3, h4, h5⟩ := ih (cols ++ [fc.1]) (some fc.1) fc.2 out hrest
    refine ⟨fc.1 :: nf', by simpa using h1, by simpa using h2, ?_, ?_, ?_⟩
    · intro j hj
      match j with
      | 0 =>
        refine ⟨i, fc.1, cols, prev, ctr, fc.2, rfl, rfl, ?_, by omega⟩
        simpa using hfc
      | Nat.succ j' =>
        have hj' : j' < rest.length := by simpa using hj
        obtain ⟨ic, fg, cP, pP, c1, c2, e1, e2, e3, e4⟩ := h3 j' hj'
        refine ⟨ic, fg, cP, pP, c1, c2, e1, e2, e3, ?_⟩
        simp only [List.length_append, List.length_singleton] at e4
        omega
    · intro hne
      exact absurd hne (by simp)
    · intro _
      by_cases hr : rest = []
      · subst hr
        obtain ⟨ho, hnf⟩ := h4 rfl
        subst hnf
        exact ⟨fc.1, ho, rfl⟩
      · obtain ⟨lf, ho, hl⟩ := h5 hr
        refine ⟨lf, ho, ?_⟩
        have hnf : nf' ≠ [] := by
          intro hc
          rw [hc] at h2
          simp only [List.length_nil] at h2
          exact hr (List.eq_nil_of_length_eq_zero h2.symm)
        rw [List.getLast?_cons, hl]
        cases nf' with
        | nil => exact absurd rfl hnf
        | cons a t => simp [List.getLast?_cons]

/-- The x-range invariant of the node loop: once the accumulator is nonempty
and every accumulated figure (and the bound `level_plot`) carries the range
`r`, every later figure and the final `level_plot` carry `r` too. -/
theorem plotLoop_xr (np : NumPrims) (mt : String) (df : Trajectories)
    (ci sur : Bool) (figsize : ℚ) :
    ∀ (idxs : List ℕ) (cols : List Figure) (prev : Option Figure) (ctr : ℕ)
      (out : List Figure × Option Figure × ℕ) (r : RangeRef),
      plotLoop np mt df ci sur figsize idxs cols prev ctr = some out →
      (∀ f ∈ cols, f.x_range = r) →
      cols.length ≠ 0 →
      (∀ p, prev = some p → p.x_range = r) →
      (∀ f ∈ out.1, f.x_range = r) ∧ (∀ p, out.2.1 = some p → p.x_range = r) := by
  intro idxs
  induction idxs with
  | nil =>
    intro cols prev ctr out r h hcols hlen hprev
    simp only [plotLoop, Option.pure_def, Option.some.injEq] at h
    subst h
    exact ⟨hcols, hprev⟩
  | cons i rest ih =>
    intro cols prev ctr out r h hcols hlen hprev
    simp only [plotLoop, Option.bind_eq_bind, Option.bind_eq_some] at h
    obtain ⟨fc, hfc, hrest⟩ := h
    obtain ⟨mu, piS, timeS, -, -, -, -, hxr, -⟩ := nodeFigure_spec np mt df ci sur
      figsize i cols prev ctr fc.1 fc.2 (by simpa using hfc)
    have hfcr : fc.1.x_range = r := by
      obtain ⟨p, hp, hx⟩ := hxr hlen
      rw [hx]
      exact hprev p hp
    refine ih (cols ++ [fc.1]) (some fc.1) fc.2 out r hrest ?_ (by simp) ?_
    · intro f hf
      simp only [List.mem_append, List.mem_singleton] at hf
      rcases hf with hf | hf
      · exact hcols f hf
      · subst hf
        exact hfcr
    · intro p hp
      simp only [Option.some.injEq] at hp
      subst hp
      exact hfcr

/-- On the first loop iteration the accumulator is empty, so the x-range
conditional takes the tuple branch and the result does not depend on the
(unbound) `level_plot` binding at all. -/
theorem nodeFigure_first_ignores_prev (np : NumPrims) (mt : String)
    (df : Trajectories) (ci sur : Bool) (figsize : ℚ) (i : ℕ)
    (prev prev' : Option Figure) (ctr : ℕ) :
    nodeFigure np mt df ci sur figsize i [] prev ctr =
    nodeFigure np mt df ci sur figsize i [] prev' ctr := by
  unfold nodeFigure xRangeFor
  simp

/-- Lemma: `downIdxs` unfolds from the top: `range(n+1, 0, -1)` starts at `n+1`. -/
theorem downIdxs_succ (n : ℕ) : downIdxs (n + 1) = (n + 1) :: downIdxs n := by
  unfold downIdxs
  rw [List.range_succ_eq_map, List.map_cons, List.map_map]
  congr 1
  apply List.map_congr_left
  intro k hk
  simp only [Function.comp_apply]
  omega

/-- Length of the loop index list. -/
theorem downIdxs_length (n : ℕ) : (downIdxs n).length = n := by
  unfold downIdxs
  simp

/-- The `j`-th loop index is `n - j`. -/
theorem downIdxs_get? (n j : ℕ) (h : j < n) : (downIdxs n).get? j = some (n - j) := by
  unfold downIdxs
  rw [List.get?_map, List.get?_range h]
  rfl

/-- Characterisation of a successful `plot_trajectories` run: the node loop
ran from an empty accumulator, `level_plot` ended bound, the `time` and
`surprise` columns were read, and the output appends the global surprise
figure and (when `slider` is set) the range-selection strip. -/
theorem plot_spec (np : NumPrims) (hgf : HGF) (ci sur : Bool) (figsize : ℚ)
    (slider : Bool) (ctr : ℕ) (figs : List Figure) (cOut : ℕ)
    (h : plot_trajectories np hgf ci sur figsize slider ctr = some (figs, cOut)) :
    ∃ cols prev c1 lp timeS surS,
      plotLoop np hgf.model_type hgf.to_pandas ci sur figsize
        (downIdxs (nNodes hgf.to_pandas)) [] none ctr = some (cols, prev, c1) ∧
      prev = some lp ∧
      hgf.to_pandas.col "time" = some timeS ∧
      hgf.to_pandas.col "surprise" = some surS ∧
      ((slider = true ∧ ∃ obsS, hgf.to_pandas.col "observation" = some obsS ∧
        figs = cols ++ [mkSurprisePlot np figsize hgf.surpriseVal lp c1 timeS surS]
          ++ [mkSelect figsize lp
              (mkSurprisePlot np figsize hgf.surpriseVal lp c1 timeS surS)
              (c1 + 1) timeS obsS]) ∨
       (slider = false ∧
        figs = cols ++ [mkSurprisePlot np figsize hgf.surpriseVal lp c1 timeS surS])) := by
  unfold plot_trajectories at h
  simp only [Option.bind_eq_bind, Option.bind_eq_some, Option.pure_def,
    Option.some.injEq] at h
  obtain ⟨lpc, hlpc, lp, hlp, timeS, htime, surS, hsur, hrest⟩ := h
  refine ⟨lpc.1, lpc.2.1, lpc.2.2, lp, timeS, surS, ?_, hlp, htime, hsur, ?_⟩
  · exact hlpc
  · split at hrest
    · rename_i hsl
      simp only [Option.bind_eq_bind, Option.bind_eq_some, Option.pure_def,
        Option.some.injEq, Prod.mk.injEq] at hrest
      obtain ⟨obsS, hobs, hfigs, hc⟩ := hrest
      exact Or.inl ⟨hsl, obsS, hobs, hfigs.symm⟩
    · rename_i hsl
      simp only [Option.pure_def, Option.some.injEq, Prod.mk.injEq] at hrest
      obtain ⟨hfigs, hc⟩ := hrest
      exact Or.inr ⟨by simpa using hsl, hfigs.symm⟩

/-- Properties of the global surprise figure read off its construction. -/
theorem mkSurprisePlot_props (np : NumPrims) (figsize sv : ℚ) (lp : Figure)
    (ctr : ℕ) (timeS surS : List ℚ) :
    (mkSurprisePlot np figsize sv lp ctr timeS surS).title =
      "Global surprise: " ++ toString (np.round2 sv) ∧
    (mkSurprisePlot np figsize sv lp ctr timeS surS).x_range = lp.x_range ∧
    (mkSurprisePlot np figsize sv lp ctr timeS surS).y_axis_label = some "Surprise" ∧
    (∀ r ∈ (mkSurprisePlot np figsize sv lp ctr timeS surS).renderers,
      r.isCircle = false) := by
  refine ⟨rfl, rfl, rfl, ?_⟩
  intro r hr
  simp only [mkSurprisePlot, Figure.addR, List.nil_append, List.mem_append,
    List.mem_singleton] at hr
  rcases hr with hr | hr <;> (subst hr; rfl)

/-- Properties of the range-selection strip read off its construction. -/
theorem mkSelect_props (figsize : ℚ) (lp sp : Figure) (ctr : ℕ)
    (timeS obsS : List ℚ) :
    (mkSelect figsize lp sp ctr timeS obsS).title = "Select the time range" ∧
    (mkSelect figsize lp sp ctr timeS obsS).tools =
      [{ x_range := sp.x_range, overlay_fill_color := some "navy",
         overlay_fill_alpha := some (1/5) }] ∧
    (mkSelect figsize lp sp ctr timeS obsS).active_multi =
      some { x_range := sp.x_range, overlay_fill_color := some "navy",
             overlay_fill_alpha := some (1/5) } ∧
    (mkSelect figsize lp sp ctr timeS obsS).y_range = lp.y_range ∧
    (mkSelect figsize lp sp ctr timeS obsS).y_axis_type_none = true ∧
    (∀ r ∈ (mkSelect figsize lp sp ctr timeS obsS).renderers,
      r.isCircle = false) := by
  refine ⟨rfl, rfl, rfl, rfl, rfl, ?_⟩
  intro r hr
  simp only [mkSelect, Figure.addR, List.nil_append, List.mem_singleton] at hr
  subst hr
  rfl

/-- With no `_muhat` column the node loop never runs, the Python local
`level_plot` stays unbound, and the construction of the global surprise figure
raises. -/
theorem plot_none_of_no_nodes (np : NumPrims) (hgf : HGF) (ci sur : Bool)
    (figsize : ℚ) (slider : Bool) (ctr : ℕ)
    (hn : nNodes hgf.to_pandas = 0) :
    plot_trajectories np hgf ci sur figsize slider ctr = none := by
  simp only [plot_trajectories]
  rw [hn]
  rfl

/-- A successful run needs at least one node. -/
theorem plot_pos_of_some (np : NumPrims) (hgf : HGF) (ci sur : Bool)
    (figsize : ℚ) (slider : Bool) (ctr : ℕ) (out : List Figure × ℕ)
    (h : plot_trajectories np hgf ci sur figsize slider ctr = some out) :
    1 ≤ nNodes hgf.to_pandas := by
  rcases Nat.eq_zero_or_pos (nNodes hgf.to_pandas) with hz | hp
  · rw [plot_none_of_no_nodes np hgf ci sur figsize slider ctr hz] at h
    exact absurd h (by simp)
  · exact hp

/-- The shape of the returned chart column: one figure per node in descending
node order, then the global surprise figure, then (when `slider` is set) the
range-selection strip. -/
theorem plot_column_shape (np : NumPrims) (hgf : HGF) (ci sur : Bool)
    (figsize : ℚ) (slider : Bool) (ctr : ℕ) (figs : List Figure) (cOut : ℕ)
    (h : plot_trajectories np hgf ci sur figsize slider ctr = some (figs, cOut)) :
    1 ≤ nNodes hgf.to_pandas ∧
    figs.length = nNodes hgf.to_pandas + (if slider = true then 2 else 1) ∧
    (∀ j, j < nNodes hgf.to_pandas → ∃ fj, figs.get? j = some fj ∧
      fj.title = nodeTitle (nNodes hgf.to_pandas - j)) ∧
    (∃ sp, figs.get? (nNodes hgf.to_pandas) = some sp ∧
      sp.title = "Global surprise: " ++ toString (np.round2 hgf.surpriseVal) ∧
      (∀ r ∈ sp.renderers, r.isCircle = false)) ∧
    (slider = true → ∃ sel, figs.get? (nNodes hgf.to_pandas + 1) = some sel ∧
      sel.title = "Select the time range" ∧
      (∀ r ∈ sel.renderers, r.isCircle = false)) := by
  have hpos := plot_pos_of_some np hgf ci sur figsize slider ctr (figs, cOut) h
  obtain ⟨cols, prev, c1, lp, timeS, surS, hloop, hlp, htime, hsurS, hbr⟩ :=
    plot_spec np hgf ci sur figsize slider ctr figs cOut h
  obtain ⟨nf, hnf1, hnf2, hnf3, -, -⟩ :=
    plotLoop_chars np hgf.model_type hgf.to_pandas ci sur figsize
      (downIdxs (nNodes hgf.to_pandas)) [] none ctr (cols, prev, c1) hloop
  simp only [List.nil_append] at hnf1
  rw [downIdxs_length] at hnf2
  have htitles : ∀ j, j < nNodes hgf.to_pandas →
      ∃ fj, nf.get? j = some fj ∧ fj.title = nodeTitle (nNodes hgf.to_pandas - j) := by
    intro j hj
    have hj' : j < (downIdxs (nNodes hgf.to_pandas)).length := by
      rw [downIdxs_length]; exact hj
    obtain ⟨ic, fg, cP, pP, cc1, cc2, e1, e2, e3, e4⟩ := hnf3 j hj'
    rw [downIdxs_get? (nNodes hgf.to_pandas) j hj] at e1
    have hic : ic = nNodes hgf.to_pandas - j := by
      simpa using e1.symm
    obtain ⟨mu, piS, tS, -, -, -, htitle, -⟩ :=
      nodeFigure_spec np hgf.model_type hgf.to_pandas ci sur figsize ic cP pP
        cc1 fg cc2 e3
    refine ⟨fg, e2, ?_⟩
    rw [htitle, hic]
    rfl
  rcases hbr with ⟨hsl, obsS, hobs, hfigs⟩ | ⟨hsl, hfigs⟩
  · subst hsl
    refine ⟨hpos, ?_, ?_, ?_, ?_⟩
    · rw [hfigs]
      simp only [List.length_append, List.length_singleton]
      rw [hnf1, hnf2]
      simp
    · intro j hj
      obtain ⟨fj, hfj, ht⟩ := htitles j hj
      refine ⟨fj, ?_, ht⟩
      rw [hfigs, List.append_assoc, List.get?_append, hnf1]
      · exact hfj
      · rw [hnf1, hnf2]; exact hj
    · refine ⟨mkSurprisePlot np figsize hgf.surpriseVal lp c1 timeS surS, ?_, ?_, ?_⟩
      · rw [hfigs, List.append_assoc, List.get?_append_right, hnf1, hnf2]
        · simp
        · rw [hnf1, hnf2]
      · exact (mkSurprisePlot_props np figsize hgf.surpriseVal lp c1 timeS surS).1
      · exact (mkSurprisePlot_props np figsize hgf.surpriseVal lp c1 timeS surS).2.2.2
    · intro _
      refine ⟨mkSelect figsize lp
        (mkSurprisePlot np figsize hgf.surpriseVal lp c1 timeS surS)
        (c1 + 1) timeS obsS, ?_, ?_, ?_⟩
      · rw [hfigs, List.append_assoc, List.get?_append_right, hnf1, hnf2]
        · simp
        · rw [hnf1, hnf2]; omega
      · exact (mkSelect_props figsize lp _ (c1 + 1) timeS obsS).1
      · exact (mkSelect_props figsize lp _ (c1 + 1) timeS obsS).2.2.2.2.2
  · subst hsl
    refine ⟨hpos, ?_, ?_, ?_, ?_⟩
    · rw [hfigs]
      simp only [List.length_append, List.length_singleton]
      rw [hnf1, hnf2]
      simp
    · intro j hj
      obtain ⟨fj, hfj, ht⟩ := htitles j hj
      refine ⟨fj, ?_, ht⟩
      rw [hfigs, List.get?_append, hnf1]
      · exact hfj
      · rw [hnf1, hnf2]; exact hj
    · refine ⟨mkSurprisePlot np figsize hgf.surpriseVal lp c1 timeS surS, ?_, ?_, ?_⟩
      · rw [hfigs, List.get?_append_right, hnf1, hnf2]
        · simp
        · rw [hnf1, hnf2]
      · exact (mkSurprisePlot_props np figsize hgf.surpriseVal lp c1 timeS surS).1
      · exact (mkSurprisePlot_props np figsize hgf.surpriseVal lp c1 timeS surS).2.2.2
    · intro hcontra
      exact absurd hcontra (by simp)

/-! ## The claims -/

/-- C6: the four input sliders have exactly the stated ranges: the two omega
sliders (Omega 1, Omega 2) range over [-20, 5] and the two mu sliders
(Mu 1, Mu 2) range over [-20, 20], each with step 0.1. -/
theorem C6_slider_ranges :
    App.slider1.titleS = "Omega 1" ∧ App.slider1.startQ = -20 ∧
      App.slider1.stopQ = 5 ∧ App.slider1.stepQ = 1/10 ∧
    App.slider2.titleS = "Omega 2" ∧ App.slider2.startQ = -20 ∧
      App.slider2.stopQ = 5 ∧ App.slider2.stepQ = 1/10 ∧
    App.slider3.titleS = "Mu 1" ∧ App.slider3.startQ = -20 ∧
      App.slider3.stopQ = 20 ∧ App.slider3.stepQ = 1/10 ∧
    App.slider4.titleS = "Mu 2" ∧ App.slider4.startQ = -20 ∧
      App.slider4.stopQ = 20 ∧ App.slider4.stepQ = 1/10 := by
  refine ⟨rfl, by norm_num [App.slider1, UINode.startQ], rfl, rfl,
    rfl, by norm_num [App.slider2, UINode.startQ], rfl, rfl,
    rfl, by norm_num [App.slider3, UINode.startQ], rfl, rfl,
    rfl, by norm_num [App.slider4, UINode.startQ], rfl, rfl⟩

/-- C7: across every invocation of the fitting callback only the omega and mu
entries vary: the HGF is always constructed with `n_levels = 2`, the fixed
`initial_pi`, `rho`, `kappas` dictionaries and `model_type = "continuous"`,
and is always fed the time series obtained once from
`load_data("continuous")`. -/
theorem C7_fixed_configuration (o1 o2 m1 m2 : ℚ) (np : NumPrims)
    (runHGF : HGFConfig → List ℚ → Trajectories × ℚ)
    (load_data : String → List ℚ) (ts : List ℚ) :
    (App.hgfConfig o1 o2 m1 m2).n_levels = 2 ∧
    (App.hgfConfig o1 o2 m1 m2).model_type = "continuous" ∧
    (App.hgfConfig o1 o2 m1 m2).initial_pi = [("1", 100), ("2", 10)] ∧
    (App.hgfConfig o1 o2 m1 m2).rho = [("1", 0), ("2", 0)] ∧
    (App.hgfConfig o1 o2 m1 m2).kappas = [("1", 1)] ∧
    (App.hgfConfig o1 o2 m1 m2).omega = [("1", o1), ("2", o2)] ∧
    (App.hgfConfig o1 o2 m1 m2).initial_mu = [("1", m1), ("2", m2)] ∧
    App.timeseries load_data = load_data "continuous" ∧
    App.fit_hgf np runHGF ts o1 o2 m1 m2 =
      (plot_trajectories np
        { cfg := App.hgfConfig o1 o2 m1 m2,
          traj := (runHGF (App.hgfConfig o1 o2 m1 m2) ts).1,
          surpriseVal := (runHGF (App.hgfConfig o1 o2 m1 m2) ts).2 }
        true true 200 true 0).map (fun p => UINode.colN (p.1.map UINode.figN)) :=
  ⟨rfl, rfl, rfl, rfl, rfl, rfl, rfl, rfl, rfl⟩

/-- C4: the model-type dropdown is not wired to the fitting callback: no
change handler is registered on it, `fit_hgf` always builds a continuous
model, and two runs differing only in the dropdown state produce the same
fitted model and the same plot column. -/
theorem C4_dropdown_unwired (np : NumPrims)
    (runHGF : HGFConfig → List ℚ → Trajectories × ℚ) (ts : List ℚ) :
    (App.dropdown = .dropdownN "Model type"
      [("Binary", "binary"), ("Continuous", "continuous")]) ∧
    (∀ a hd, ("dropdown", a, hd) ∉ App.widgetRegistrations) ∧
    (∀ o1 o2 m1 m2, (App.hgfConfig o1 o2 m1 m2).model_type = "continuous") ∧
    (∀ attr old new st st', st.slider1Val = st'.slider1Val →
      st.slider2Val = st'.slider2Val → st.slider3Val = st'.slider3Val →
      st.slider4Val = st'.slider4Val → st.children = st'.children →
      App.fit_hgf np runHGF ts st.slider1Val st.slider2Val st.slider3Val st.slider4Val =
        App.fit_hgf np runHGF ts st'.slider1Val st'.slider2Val st'.slider3Val st'.slider4Val ∧
      (App.on_change np runHGF ts attr old new st).1.children =
        (App.on_change np runHGF ts attr old new st').1.children ∧
      (App.on_change np runHGF ts attr old new st).2 =
        (App.on_change np runHGF ts attr old new st').2) := by
  refine ⟨rfl, ?_, fun _ _ _ _ => rfl, ?_⟩
  · intro a hd hmem
    simp only [App.widgetRegistrations, List.mem_cons, List.not_mem_nil,
      or_false, Prod.mk.injEq] at hmem
    rcases hmem with ⟨h1, -⟩ | ⟨h1, -⟩ | ⟨h1, -⟩ | ⟨h1, -⟩ <;>
      exact absurd h1 (by decide)
  · intro attr old new st st' h1 h2 h3 h4 h5
    have hfit : App.fit_hgf np runHGF ts st.slider1Val st.slider2Val
        st.slider3Val st.slider4Val =
        App.fit_hgf np runHGF ts st'.slider1Val st'.slider2Val
        st'.slider3Val st'.slider4Val := by
      rw [h1, h2, h3, h4]
    refine ⟨hfit, ?_, ?_⟩ <;>
      (unfold App.on_change
       rw [hfit, h5]
       rcases hc : App.fit_hgf np runHGF ts st'.slider1Val st'.slider2Val
         st'.slider3Val st'.slider4Val with - | c <;> simp [hc, h5])

/-- C4 witness: concrete states differing only in the dropdown state give
identical children and exception flags. -/
theorem C4_dropdown_unwired_witness :
    ("dropdown", "value", "on_change") ∉ App.widgetRegistrations ∧
    (App.hgfConfig 1 2 3 4).model_type = "continuous" ∧
    (App.on_change np0 run2 [1, 2, 1] "value" 0 1 stA).1.children =
      (App.on_change np0 run2 [1, 2, 1] "value" 0 1 stB).1.children :=
  ⟨(C4_dropdown_unwired np0 run2 [1, 2, 1]).2.1 "value" "on_change",
   (C4_dropdown_unwired np0 run2 [1, 2, 1]).2.2.1 1 2 3 4,
   ((C4_dropdown_unwired np0 run2 [1, 2, 1]).2.2.2 "value" 0 1 stA stB
      rfl rfl rfl rfl rfl).2.1⟩

/-- C1: `on_change` is registered for the 'value' attribute of all four
sliders, and on a successful re-fit it replaces exactly the third child
(index 2) of the root layout with the plot column fitted at the current
values of all four sliders, leaving children 0 and 1 unchanged. -/
theorem C1_on_change_replaces_plot (np : NumPrims)
    (runHGF : HGFConfig → List ℚ → Trajectories × ℚ) (ts : List ℚ)
    (attr : String) (old new : ℚ) (st : App.AppState) (c : UINode)
    (hfit : App.fit_hgf np runHGF ts st.slider1Val st.slider2Val
      st.slider3Val st.slider4Val = some c) :
    (∀ s ∈ ["slider1", "slider2", "slider3", "slider4"],
      (s, "value", "on_change") ∈ App.widgetRegistrations) ∧
    App.on_change np runHGF ts attr old new st =
      ({ st with children := st.children.set 2 c }, false) ∧
    (st.children.set 2 c).get? 0 = st.children.get? 0 ∧
    (st.children.set 2 c).get? 1 = st.children.get? 1 ∧
    (2 < st.children.length → (st.children.set 2 c).get? 2 = some c) := by
  refine ⟨?_, ?_, ?_, ?_, ?_⟩
  · intro s hs
    simp only [List.mem_cons, List.not_mem_nil, or_false] at hs
    rcases hs with hs | hs | hs | hs <;>
      (subst hs; simp [App.widgetRegistrations])
  · unfold App.on_change
    rw [hfit]
  · exact List.get?_set_ne c st.children (by omega)
  · exact List.get?_set_ne c st.children (by omega)
  · intro hlen
    rw [List.get?_set_eq_of_lt c hlen]

/-- C1 witness: the callback at a concrete state replaces the third child
with the freshly fitted column and touches nothing else. -/
theorem C1_on_change_replaces_plot_witness :
    App.fit_hgf np0 run2 [1, 2, 1] (-4) (-4) 1 0 =
      some (uiOf (App.fit_hgf np0 run2 [1, 2, 1] (-4) (-4) 1 0)) ∧
    App.on_change np0 run2 [1, 2, 1] "value" 0 1 stA =
      ({ stA with children :=
          stA.children.set 2 (uiOf (App.fit_hgf np0 run2 [1, 2, 1] (-4) (-4) 1 0)) },
        false) :=
  ⟨by rfl,
   (C1_on_change_replaces_plot np0 run2 [1, 2, 1] "value" 0 1 stA
      (uiOf (App.fit_hgf np0 run2 [1, 2, 1] (-4) (-4) 1 0)) (by rfl)).2.1⟩

/-- C8: there is no exception handling: a failure inside `fit_hgf` is exactly
a failure of the plotting pipeline on the constructed model, and when the
callback's re-fit raises, the exception escapes `on_change` and the layout is
left exactly as it was. -/
theorem C8_no_error_handling (np : NumPrims)
    (runHGF : HGFConfig → List ℚ → Trajectories × ℚ) (ts : List ℚ)
    (attr : String) (old new : ℚ) (st : App.AppState) (o1 o2 m1 m2 : ℚ) :
    (App.fit_hgf np runHGF ts o1 o2 m1 m2 = none ↔
      plot_trajectories np
        { cfg := App.hgfConfig o1 o2 m1 m2,
          traj := (runHGF (App.hgfConfig o1 o2 m1 m2) ts).1,
          surpriseVal := (runHGF (App.hgfConfig o1 o2 m1 m2) ts).2 }
        true true 200 true 0 = none) ∧
    (App.fit_hgf np runHGF ts st.slider1Val st.slider2Val st.slider3Val
        st.slider4Val = none →
      App.on_change np runHGF ts attr old new st = (st, true)) := by
  constructor
  · unfold App.fit_hgf
    simp
  · intro hfit
    unfold App.on_change
    rw [hfit]

/-- C8 witness: with a fitting engine whose trajectory dataframe is empty the
re-fit raises, the exception escapes, and the state is untouched. -/
theorem C8_no_error_handling_witness :
    App.fit_hgf np0 runE [1, 2, 1] (-4) (-4) 1 0 = none ∧
    App.on_change np0 runE [1, 2, 1] "value" 0 1 stA = (stA, true) :=
  ⟨rfl,
   (C8_no_error_handling np0 runE [1, 2, 1] "value" 0 1 stA (-4) (-4) 1 0).2 rfl⟩

/-- C9: `plot_trajectories` is well defined only when at least one column
matches `_muhat`: a successful run implies `n_nodes ≥ 1`, with `n_nodes = 0`
the loop never runs and the construction of the global surprise figure reads
the unbound `level_plot` and fails, and on a first loop iteration (empty
accumulator) the x-range conditional takes the tuple branch, so the result
never depends on the unbound `level_plot` binding. -/
theorem C9_well_defined_only_with_nodes (np : NumPrims) (hgf : HGF)
    (ci sur : Bool) (figsize : ℚ) (slider : Bool) (ctr : ℕ) :
    (nNodes hgf.to_pandas = 0 →
      plot_trajectories np hgf ci sur figsize slider ctr = none) ∧
    (∀ out, plot_trajectories np hgf ci sur figsize slider ctr = some out →
      1 ≤ nNodes hgf.to_pandas) ∧
    (∀ i rest prev c,
      plotLoop np hgf.model_type hgf.to_pandas ci sur figsize (i :: rest) [] prev c =
      plotLoop np hgf.model_type hgf.to_pandas ci sur figsize (i :: rest) [] none c) := by
  refine ⟨plot_none_of_no_nodes np hgf ci sur figsize slider ctr,
    fun out hsome => plot_pos_of_some np hgf ci sur figsize slider ctr out hsome, ?_⟩
  intro i rest prev c
  simp only [plotLoop]
  rw [nodeFigure_first_ignores_prev np hgf.model_type hgf.to_pandas ci sur
    figsize i prev none c]

/-- C9 witness: on a model with an empty trajectory dataframe (`n_nodes = 0`)
the plotting raises. -/
theorem C9_well_defined_only_with_nodes_witness :
    nNodes hgfE.to_pandas = 0 ∧
    plot_trajectories np0 hgfE true true 200 true 0 = none :=
  ⟨rfl, (C9_well_defined_only_with_nodes np0 hgfE true true 200 true 0).1 rfl⟩

/-- C3: all charts are linked: every node figure shares the x-range object of
the first-created node figure, the global surprise figure shares it too, and
the `RangeTool` of the range-selection strip is constructed over that same
shared x-range. -/
theorem C3_shared_x_range (np : NumPrims) (hgf : HGF) (ci sur : Bool)
    (figsize : ℚ) (ctr : ℕ) (figs : List Figure) (cOut : ℕ)
    (h : plot_trajectories np hgf ci sur figsize true ctr = some (figs, cOut)) :
    1 ≤ nNodes hgf.to_pandas ∧
    ∃ f0, figs.get? 0 = some f0 ∧
      (∀ j, j < nNodes hgf.to_pandas → ∃ fj, figs.get? j = some fj ∧
        fj.x_range = f0.x_range) ∧
      (∃ sp, figs.get? (nNodes hgf.to_pandas) = some sp ∧
        sp.x_range = f0.x_range) ∧
      (∃ sel rt, figs.get? (nNodes hgf.to_pandas + 1) = some sel ∧
        sel.tools = [rt] ∧ sel.active_multi = some rt ∧
        rt.x_range = f0.x_range) := by
  have hpos := plot_pos_of_some np hgf ci sur figsize true ctr (figs, cOut) h
  obtain ⟨cols, prev, c1, lp, timeS, surS, hloop, hlp, htime, hsurS, hbr⟩ :=
    plot_spec np hgf ci sur figsize true ctr figs cOut h
  rcases hbr with ⟨-, obsS, hobs, hfigs⟩ | ⟨hfalse, -⟩
  swap
  · exact absurd hfalse (by simp)
  obtain ⟨n', hn'⟩ : ∃ n', nNodes hgf.to_pandas = n' + 1 :=
    ⟨nNodes hgf.to_pandas - 1, by omega⟩
  rw [hn', downIdxs_succ] at hloop
  simp only [plotLoop, Option.bind_eq_bind, Option.bind_eq_some] at hloop
  obtain ⟨fc, hfc, hrest⟩ := hloop
  obtain ⟨hcolsr, hprevr⟩ :=
    plotLoop_xr np hgf.model_type hgf.to_pandas ci sur figsize
      (downIdxs n') [fc.1] (some fc.1) fc.2 (cols, prev, c1) fc.1.x_range hrest
      (by intro f hf; simp only [List.mem_singleton] at hf; rw [hf])
      (by simp)
      (by intro p hp; simp only [Option.some.injEq] at hp; rw [← hp])
  have hlpr : lp.x_range = fc.1.x_range := hprevr lp hlp
  obtain ⟨nf', hnf1, hnf2, -, -, -⟩ :=
    plotLoop_chars np hgf.model_type hgf.to_pandas ci sur figsize
      (downIdxs n') [fc.1] (some fc.1) fc.2 (cols, prev, c1) hrest
  rw [downIdxs_length] at hnf2
  dsimp only at hnf1 hcolsr hprevr
  have hclen : cols.length = nNodes hgf.to_pandas := by
    rw [hnf1, hn']
    simp only [List.length_append, List.length_singleton]
    omega
  have hget0 : cols.get? 0 = some fc.1 := by
    rw [hnf1]
    rfl
  refine ⟨hpos, fc.1, ?_, ?_, ?_, ?_⟩
  · rw [hfigs, List.append_assoc, List.get?_append, hget0]
    omega
  · intro j hj
    have hjc : j < cols.length := by omega
    obtain ⟨fj, hfj⟩ : ∃ fj, cols.get? j = some fj := by
      rw [List.get?_eq_get hjc]
      exact ⟨cols.get ⟨j, hjc⟩, rfl⟩
    refine ⟨fj, ?_, ?_⟩
    · rw [hfigs, List.append_assoc, List.get?_append hjc]
      exact hfj
    · refine hcolsr fj ?_
      exact List.get?_mem hfj
  · refine ⟨mkSurprisePlot np figsize hgf.surpriseVal lp c1 timeS surS, ?_, ?_⟩
    · rw [hfigs, List.append_assoc, List.get?_append_right (by omega)]
      rw [hclen]
      simp
    · rw [(mkSurprisePlot_props np figsize hgf.surpriseVal lp c1 timeS surS).2.1]
      exact hlpr
  · refine ⟨mkSelect figsize lp
      (mkSurprisePlot np figsize hgf.surpriseVal lp c1 timeS surS)
      (c1 + 1) timeS obsS,
      { x_range := (mkSurprisePlot np figsize hgf.surpriseVal lp c1 timeS surS).x_range,
        overlay_fill_color := some "navy", overlay_fill_alpha := some (1/5) },
      ?_, ?_, ?_, ?_⟩
    · rw [hfigs, List.append_assoc, List.get?_append_right (by omega)]
      rw [hclen]
      simp
    · exact (mkSelect_props figsize lp _ (c1 + 1) timeS obsS).2.1
    · exact (mkSelect_props figsize lp _ (c1 + 1) timeS obsS).2.2.1
    · rw [(mkSurprisePlot_props np figsize hgf.surpriseVal lp c1 timeS surS).2.1]
      exact hlpr

/-- C3 witness: on a concrete two-node model all charts share the first
figure's x-range object and the range tool is built over it. -/
theorem C3_shared_x_range_witness :
    1 ≤ nNodes hgf2.to_pandas ∧
    ∃ f0, (figsOf (plot_trajectories np0 hgf2 true true 200 true 0)).get? 0 = some f0 ∧
      (∀ j, j < nNodes hgf2.to_pandas →
        ∃ fj, (figsOf (plot_trajectories np0 hgf2 true true 200 true 0)).get? j = some fj ∧
          fj.x_range = f0.x_range) ∧
      (∃ sp, (figsOf (plot_trajectories np0 hgf2 true true 200 true 0)).get?
          (nNodes hgf2.to_pandas) = some sp ∧ sp.x_range = f0.x_range) ∧
      (∃ sel rt, (figsOf (plot_trajectories np0 hgf2 true true 200 true 0)).get?
          (nNodes hgf2.to_pandas + 1) = some sel ∧
        sel.tools = [rt] ∧ sel.active_multi = some rt ∧
        rt.x_range = f0.x_range) :=
  C3_shared_x_range np0 hgf2 true true 200 0
    (figsOf (plot_trajectories np0 hgf2 true true 200 true 0))
    (ctrOf (plot_trajectories np0 hgf2 true true 200 true 0)) (by rfl)

/-- C10: the node figures come in descending node order (node `n_nodes`
first, node 1 last, just above the global surprise figure), the raw input
observations are drawn only on the node-1 figure (the one at index
`n_nodes - 1`), and the returned column has `n_nodes + 2` children when
`slider` is true and `n_nodes + 1` when it is false. -/
theorem C10_order_observations_children (np : NumPrims) (hgf : HGF)
    (ci sur : Bool) (figsize : ℚ) (slider : Bool) (ctr : ℕ)
    (figs : List Figure) (cOut : ℕ)
    (h : plot_trajectories np hgf ci sur figsize slider ctr = some (figs, cOut)) :
    figs.length = nNodes hgf.to_pandas + (if slider = true then 2 else 1) ∧
    (∀ j, j < nNodes hgf.to_pandas → ∃ fj, figs.get? j = some fj ∧
      fj.title = nodeTitle (nNodes hgf.to_pandas - j)) ∧
    (∃ f1, figs.get? (nNodes hgf.to_pandas - 1) = some f1 ∧ f1.title = "Node 1") ∧
    (∃ sp, figs.get? (nNodes hgf.to_pandas) = some sp ∧
      sp.title = "Global surprise: " ++ toString (np.round2 hgf.surpriseVal)) ∧
    (∀ j fj r, figs.get? j = some fj → r ∈ fj.renderers → r.isCircle = true →
      j = nNodes hgf.to_pandas - 1) ∧
    (hgf.model_type = "continuous" → ∃ f1 timeS obsS,
      figs.get? (nNodes hgf.to_pandas - 1) = some f1 ∧
      hgf.to_pandas.col "time" = some timeS ∧
      hgf.to_pandas.col "observation" = some obsS ∧
      Renderer.circleR timeS obsS (some 2) (some "Input") (some "#2a2a2a")
        (some "#2a2a2a") (some (1/2)) none ∈ f1.renderers) := by
  obtain ⟨hpos, hlen, htitles, ⟨sp, hsp, hspt, hspnc⟩, hsel⟩ :=
    plot_column_shape np hgf ci sur figsize slider ctr figs cOut h
  obtain ⟨cols, prev, c1, lp, timeS, surS, hloop, hlp, htime, hsurS, hbr⟩ :=
    plot_spec np hgf ci sur figsize slider ctr figs cOut h
  obtain ⟨nf, hnf1, hnf2, hnf3, -, -⟩ :=
    plotLoop_chars np hgf.model_type hgf.to_pandas ci sur figsize
      (downIdxs (nNodes hgf.to_pandas)) [] none ctr (cols, prev, c1) hloop
  dsimp only at hnf1
  simp only [List.nil_append] at hnf1
  rw [downIdxs_length] at hnf2
  have hnodeAt : ∀ j, j < nNodes hgf.to_pandas → ∃ fg cP pP cc1 cc2,
      figs.get? j = some fg ∧ cP.length = j ∧
      nodeFigure np hgf.model_type hgf.to_pandas ci sur figsize
        (nNodes hgf.to_pandas - j) cP pP cc1 = some (fg, cc2) := by
    intro j hj
    have hj' : j < (downIdxs (nNodes hgf.to_pandas)).length := by
      rw [downIdxs_length]; exact hj
    obtain ⟨ic, fg, cP, pP, cc1, cc2, e1, e2, e3, e4⟩ := hnf3 j hj'
    rw [downIdxs_get? (nNodes hgf.to_pandas) j hj] at e1
    have hic : ic = nNodes hgf.to_pandas - j := by simpa using e1.symm
    subst hic
    refine ⟨fg, cP, pP, cc1, cc2, ?_, by simpa using e4, e3⟩
    have hjnf : j < nf.length := by rw [hnf2]; exact hj
    rcases hbr with ⟨-, obsS, hobs, hfigs⟩ | ⟨-, hfigs⟩
    · rw [hfigs, List.append_assoc, List.get?_append (by rw [← hnf1] at hjnf; exact hjnf)]
      rw [hnf1]
      exact e2
    · rw [hfigs, List.get?_append (by rw [← hnf1] at hjnf; exact hjnf)]
      rw [hnf1]
      exact e2
  refine ⟨hlen, htitles, ?_, ⟨sp, hsp, hspt⟩, ?_, ?_⟩
  · obtain ⟨f1, hf1, ht1⟩ := htitles (nNodes hgf.to_pandas - 1) (by omega)
    refine ⟨f1, hf1, ?_⟩
    have hsub : nNodes hgf.to_pandas - (nNodes hgf.to_pandas - 1) = 1 := by omega
    rw [hsub] at ht1
    rw [ht1]
    rfl
  · intro j fj r hfj hr hcirc
    by_cases hj : j < nNodes hgf.to_pandas
    · obtain ⟨fg, cP, pP, cc1, cc2, e2, e4, e3⟩ := hnodeAt j hj
      rw [hfj] at e2
      obtain ⟨-, -, -, -, -, -, -, -, -, -, -, hcircOnly, -⟩ :=
        nodeFigure_spec np hgf.model_type hgf.to_pandas ci sur figsize
          (nNodes hgf.to_pandas - j) cP pP cc1 fg cc2 e3
      have h1 : nNodes hgf.to_pandas - j = 1 := by
        apply hcircOnly r ?_ hcirc
        have : fj = fg := by simpa using e2
        rw [← this]
        exact hr
      omega
    · exfalso
      by_cases hjn : j = nNodes hgf.to_pandas
      · subst hjn
        rw [hfj] at hsp
        have : fj = sp := by simpa using hsp
        subst this
        rw [hspnc r hr] at hcirc
        exact Bool.false_ne_true hcirc
      · have hjge : nNodes hgf.to_pandas + 1 ≤ j := by omega
        rcases hbr with ⟨hsl, obsS, hobs, hfigs⟩ | ⟨hsl, hfigs⟩
        · obtain ⟨sel, hselg, -, hselnc⟩ := hsel hsl
          by_cases hjn1 : j = nNodes hgf.to_pandas + 1
          · subst hjn1
            rw [hfj] at hselg
            have : fj = sel := by simpa using hselg
            subst this
            rw [hselnc r hr] at hcirc
            exact Bool.false_ne_true hcirc
          · have h2 : (if slider = true then 2 else 1) = 2 := by rw [hsl]; decide
            have : figs.get? j = none := by
              apply List.get?_eq_none.mpr
              rw [hlen, h2]
              omega
            rw [hfj] at this
            exact Option.some_ne_none fj this
        · have h1 : (if slider = true then 2 else 1) = 1 := by rw [hsl]; decide
          have : figs.get? j = none := by
            apply List.get?_eq_none.mpr
            rw [hlen, h1]
            omega
          rw [hfj] at this
          exact Option.some_ne_none fj this
  · intro hmt
    obtain ⟨fg, cP, pP, cc1, cc2, e2, e4, e3⟩ :=
      hnodeAt (nNodes hgf.to_pandas - 1) (by omega)
    have hone : nNodes hgf.to_pandas - (nNodes hgf.to_pandas - 1) = 1 := by omega
    rw [hone] at e3
    obtain ⟨mu, piS, tS, -, -, htS, -, -, -, -, -, -, hcircPos⟩ :=
      nodeFigure_spec np hgf.model_type hgf.to_pandas ci sur figsize
        1 cP pP cc1 fg cc2 e3
    obtain ⟨obsS, hobs, hmem⟩ := hcircPos rfl hmt
    exact ⟨fg, tS, obsS, e2, htS, hobs, hmem⟩

/-- C10 witness: on a concrete two-node continuous model the column has
`n_nodes + 2` children, node 1 sits just above the global surprise figure,
and the observations scatter is on the node-1 figure. -/
theorem C10_order_observations_children_witness :
    (figsOf (plot_trajectories np0 hgf2 true true 200 true 0)).length =
      nNodes hgf2.to_pandas + (if (true : Bool) = true then 2 else 1) ∧
    (∃ f1, (figsOf (plot_trajectories np0 hgf2 true true 200 true 0)).get?
        (nNodes hgf2.to_pandas - 1) = some f1 ∧ f1.title = "Node 1") ∧
    (HGF.model_type hgf2 = "continuous" → ∃ f1 timeS obsS,
      (figsOf (plot_trajectories np0 hgf2 true true 200 true 0)).get?
        (nNodes hgf2.to_pandas - 1) = some f1 ∧
      hgf2.to_pandas.col "time" = some timeS ∧
      hgf2.to_pandas.col "observation" = some obsS ∧
      Renderer.circleR timeS obsS (some 2) (some "Input") (some "#2a2a2a")
        (some "#2a2a2a") (some (1/2)) none ∈ f1.renderers) :=
  ⟨(C10_order_observations_children np0 hgf2 true true 200 true 0
      (figsOf (plot_trajectories np0 hgf2 true true 200 true 0))
      (ctrOf (plot_trajectories np0 hgf2 true true 200 true 0)) (by rfl)).1,
   (C10_order_observations_children np0 hgf2 true true 200 true 0
      (figsOf (plot_trajectories np0 hgf2 true true 200 true 0))
      (ctrOf (plot_trajectories np0 hgf2 true true 200 true 0)) (by rfl)).2.2.1,
   (C10_order_observations_children np0 hgf2 true true 200 true 0
      (figsOf (plot_trajectories np0 hgf2 true true 200 true 0))
      (ctrOf (plot_trajectories np0 hgf2 true true 200 true 0)) (by rfl)).2.2.2.2.2⟩

/-- The figure at position `j < n_nodes` of a successful run is the output of
a successful `nodeFigure` call for node `n_nodes - j` at accumulator
length `j`. -/
theorem plot_node_at (np : NumPrims) (hgf : HGF) (ci sur : Bool)
    (figsize : ℚ) (slider : Bool) (ctr : ℕ) (figs : List Figure) (cOut : ℕ)
    (h : plot_trajectories np hgf ci sur figsize slider ctr = some (figs, cOut))
    (j : ℕ) (hj : j < nNodes hgf.to_pandas) :
    ∃ fg cP pP cc1 cc2, figs.get? j = some fg ∧ cP.length = j ∧
      nodeFigure np hgf.model_type hgf.to_pandas ci sur figsize
        (nNodes hgf.to_pandas - j) cP pP cc1 = some (fg, cc2) := by
  obtain ⟨cols, prev, c1, lp, timeS, surS, hloop, hlp, htime, hsurS, hbr⟩ :=
    plot_spec np hgf ci sur figsize slider ctr figs cOut h
  obtain ⟨nf, hnf1, hnf2, hnf3, -, -⟩ :=
    plotLoop_chars np hgf.model_type hgf.to_pandas ci sur figsize
      (downIdxs (nNodes hgf.to_pandas)) [] none ctr (cols, prev, c1) hloop
  dsimp only at hnf1
  simp only [List.nil_append] at hnf1
  rw [downIdxs_length] at hnf2
  have hj' : j < (downIdxs (nNodes hgf.to_pandas)).length := by
    rw [downIdxs_length]; exact hj
  obtain ⟨ic, fg, cP, pP, cc1, cc2, e1, e2, e3, e4⟩ := hnf3 j hj'
  rw [downIdxs_get? (nNodes hgf.to_pandas) j hj] at e1
  have hic : ic = nNodes hgf.to_pandas - j := by simpa using e1.symm
  subst hic
  refine ⟨fg, cP, pP, cc1, cc2, ?_, by simpa using e4, e3⟩
  have hjnf : j < nf.length := by rw [hnf2]; exact hj
  rcases hbr with ⟨-, obsS, hobs, hfigs⟩ | ⟨-, hfigs⟩
  · rw [hfigs, List.append_assoc, List.get?_append (by rw [← hnf1] at hjnf; exact hjnf)]
    rw [hnf1]
    exact e2
  · rw [hfigs, List.get?_append (by rw [← hnf1] at hjnf; exact hjnf)]
    rw [hnf1]
    exact e2

/-- C2 (amended): for every node `i` of the fitted model, the node's figure
(at position `n_nodes - i`) carries the mean trajectory `node_i_muhat` as a
line; when `ci` is true — except for node 1 of a binary model, which the code
skips — it carries the uncertainty band from `muhat - sd` to `muhat + sd`
with `sd = sqrt(1 / node_i_pihat)`; and when `surprise` is true it carries
the node's surprise as a line and area on the secondary y-range named
"surprise" with a `LinearAxis` added on the right. -/
theorem C2_node_figure_renderers (np : NumPrims) (hgf : HGF) (ci sur : Bool)
    (figsize : ℚ) (slider : Bool) (ctr : ℕ) (figs : List Figure) (cOut : ℕ)
    (h : plot_trajectories np hgf ci sur figsize slider ctr = some (figs, cOut)) :
    ∀ i, 1 ≤ i → i ≤ nNodes hgf.to_pandas →
    ∃ fi mu piS timeS,
      figs.get? (nNodes hgf.to_pandas - i) = some fi ∧
      hgf.to_pandas.col (s!"node_{i}_muhat") = some mu ∧
      hgf.to_pandas.col (s!"node_{i}_pihat") = some piS ∧
      hgf.to_pandas.col "time" = some timeS ∧
      fi.title = s!"Node {i}" ∧
      Renderer.lineR timeS mu (some (paletteColor (nNodes hgf.to_pandas - i)))
        (some (1/2)) none ∈ fi.renderers ∧
      (ci = true → ¬ (HGF.model_type hgf = "binary" ∧ i = 1) →
        Renderer.vareaR timeS
          (List.zipWith (fun a b => a - b) mu (piS.map (fun p => np.sqrtQ (1 / p))))
          (List.zipWith (fun a b => a + b) mu (piS.map (fun p => np.sqrtQ (1 / p))))
          (some (paletteColor (nNodes hgf.to_pandas - i))) (some (2/5)) none ∈
            fi.renderers) ∧
      (sur = true → ∃ sS, hgf.to_pandas.col (s!"node_{i}_surprise") = some sS ∧
        Renderer.lineR timeS sS (some "#2a2a2a") (some (1/2)) (some "surprise") ∈
          fi.renderers ∧
        Renderer.vareaR timeS sS (sS.map (fun _ => listMin sS)) (some "#7f7f7f")
          (some (1/5)) (some "surprise") ∈ fi.renderers ∧
        ("surprise", "Surprise") ∈ fi.right_layouts ∧
        ∃ rr, ("surprise", rr) ∈ fi.extra_y_ranges) := by
  intro i hi1 hin
  have hpos := plot_pos_of_some np hgf ci sur figsize slider ctr (figs, cOut) h
  have hj : nNodes hgf.to_pandas - i < nNodes hgf.to_pandas := by omega
  obtain ⟨fg, cP, pP, cc1, cc2, e2, e4, e3⟩ :=
    plot_node_at np hgf ci sur figsize slider ctr figs cOut h
      (nNodes hgf.to_pandas - i) hj
  have hic : nNodes hgf.to_pandas - (nNodes hgf.to_pandas - i) = i := by omega
  rw [hic] at e3
  obtain ⟨mu, piS, tS, hmu, hpi, htS, htitle, -, hline, hband, hsur, -, -⟩ :=
    nodeFigure_spec np hgf.model_type hgf.to_pandas ci sur figsize i cP pP
      cc1 fg cc2 e3
  rw [e4] at hline hband
  exact ⟨fg, mu, piS, tS, e2, hmu, hpi, htS, htitle, hline, hband, hsur⟩

/-- C2 counterexample: on a fitted binary model with one node and `ci` true,
the node-1 figure carries no uncertainty band at all — the conditional at
plot.py line 110 skips the band for the first level of a binary model, which
the claim as stated does not except. -/
theorem C2_counterexample_binary_node1_no_band :
    nNodes hgfB.to_pandas = 1 ∧
    HGF.model_type hgfB = "binary" ∧
    ((figsOf (plot_trajectories np0 hgfB true true 200 true 0)).map
      Figure.title).get? 0 = some "Node 1" ∧
    ((figsOf (plot_trajectories np0 hgfB true true 200 true 0)).map
      hasCiBand).get? 0 = some false := by
  refine ⟨by decide, rfl, by rfl, by rfl⟩

/-- C2 witness: on a concrete two-node continuous model with `ci` and
`surprise` set, node 1's figure carries the mean line, the uncertainty band
and the surprise overlay. -/
theorem C2_node_figure_renderers_witness :
    1 ≤ (1 : ℕ) ∧ 1 ≤ nNodes hgf2.to_pandas ∧
    (∃ fi mu piS timeS,
      (figsOf (plot_trajectories np0 hgf2 true true 200 true 0)).get?
        (nNodes hgf2.to_pandas - 1) = some fi ∧
      hgf2.to_pandas.col "node_1_muhat" = some mu ∧
      hgf2.to_pandas.col "node_1_pihat" = some piS ∧
      hgf2.to_pandas.col "time" = some timeS ∧
      fi.title = "Node 1" ∧
      Renderer.lineR timeS mu (some (paletteColor (nNodes hgf2.to_pandas - 1)))
        (some (1/2)) none ∈ fi.renderers ∧
      (true = true → ¬ (HGF.model_type hgf2 = "binary" ∧ 1 = 1) →
        Renderer.vareaR timeS
          (List.zipWith (fun a b => a - b) mu (piS.map (fun p => np0.sqrtQ (1 / p))))
          (List.zipWith (fun a b => a + b) mu (piS.map (fun p => np0.sqrtQ (1 / p))))
          (some (paletteColor (nNodes hgf2.to_pandas - 1))) (some (2/5)) none ∈
            fi.renderers) ∧
      (true = true → ∃ sS, hgf2.to_pandas.col "node_1_surprise" = some sS ∧
        Renderer.lineR timeS sS (some "#2a2a2a") (some (1/2)) (some "surprise") ∈
          fi.renderers ∧
        Renderer.vareaR timeS sS (sS.map (fun _ => listMin sS)) (some "#7f7f7f")
          (some (1/5)) (some "surprise") ∈ fi.renderers ∧
        ("surprise", "Surprise") ∈ fi.right_layouts ∧
        ∃ rr, ("surprise", rr) ∈ fi.extra_y_ranges)) :=
  ⟨Nat.le_refl 1, by decide,
   C2_node_figure_renderers np0 hgf2 true true 200 true 0
     (figsOf (plot_trajectories np0 hgf2 true true 200 true 0))
     (ctrOf (plot_trajectories np0 hgf2 true true 200 true 0)) (by rfl)
     1 (Nat.le_refl 1) (by decide)⟩

/-- The root layout is the plot pipeline on the startup model, wrapped in a
column after the title and the widget rows. -/
theorem App.layout_eq (np : NumPrims)
    (runHGF : HGFConfig → List ℚ → Trajectories × ℚ)
    (load_data : String → List ℚ) :
    App.layout np runHGF load_data =
      (plot_trajectories np (App.initialModel runHGF load_data)
        true true 200 true 0).map
        (fun p => UINode.colN [App.app_title, App.widgets,
          UINode.colN (p.1.map UINode.figN)]) := by
  unfold App.layout App.fit_hgf App.initialModel
  rw [Option.map_map]
  rfl

/-- C5: the document tree rooted at the layout is a column of exactly the
title `Div`, the widget column (two rows of two sliders each), and the chart
column produced by `plot_trajectories`, which contains one figure per node,
then the global surprise figure titled with the rounded global surprise
value, then the range-selector strip. -/
theorem C5_document_tree (np : NumPrims)
    (runHGF : HGFConfig → List ℚ → Trajectories × ℚ)
    (load_data : String → List ℚ) (figs : List Figure) (cOut : ℕ)
    (h : plot_trajectories np (App.initialModel runHGF load_data)
      true true 200 true 0 = some (figs, cOut)) :
    App.layout np runHGF load_data =
      some (UINode.colN [App.app_title, App.widgets,
        UINode.colN (figs.map UINode.figN)]) ∧
    App.app_title = UINode.divN
      "\n        <h1>The Hierarchical Gaussian Filter</h1>\n        " 900 60 ∧
    App.widgets = UINode.colN [UINode.rowN [App.slider1, App.slider2],
      UINode.rowN [App.slider3, App.slider4]] ∧
    figs.length = nNodes (App.initialModel runHGF load_data).to_pandas + 2 ∧
    (∀ j, j < nNodes (App.initialModel runHGF load_data).to_pandas →
      ∃ fj, figs.get? j = some fj ∧
        fj.title =
          nodeTitle (nNodes (App.initialModel runHGF load_data).to_pandas - j)) ∧
    (∃ sp, figs.get? (nNodes (App.initialModel runHGF load_data).to_pandas) =
      some sp ∧
      sp.title = "Global surprise: " ++
        toString (np.round2 (App.initialModel runHGF load_data).surpriseVal)) ∧
    (∃ sel, figs.get?
        (nNodes (App.initialModel runHGF load_data).to_pandas + 1) = some sel ∧
      sel.title = "Select the time range") := by
  obtain ⟨hpos, hlen, htitles, ⟨sp, hsp, hspt, -⟩, hsel⟩ :=
    plot_column_shape np (App.initialModel runHGF load_data) true true 200
      true 0 figs cOut h
  obtain ⟨sel, hselg, hselt, -⟩ := hsel rfl
  refine ⟨?_, rfl, rfl, ?_, htitles, ⟨sp, hsp, hspt⟩, ⟨sel, hselg, hselt⟩⟩
  · rw [App.layout_eq, h]
    rfl
  · rw [hlen]
    rfl

/-- C5 witness: on a concrete fitting engine the mounted layout is the title,
the widget rows and the chart column, with `n_nodes + 2` charts. -/
theorem C5_document_tree_witness :
    App.layout np0 run2 loadData0 =
      some (UINode.colN [App.app_title, App.widgets,
        UINode.colN ((figsOf (plot_trajectories np0
          (App.initialModel run2 loadData0) true true 200 true 0)).map
            UINode.figN)]) ∧
    (figsOf (plot_trajectories np0 (App.initialModel run2 loadData0)
        true true 200 true 0)).length =
      nNodes (App.initialModel run2 loadData0).to_pandas + 2 :=
  ⟨(C5_document_tree np0 run2 loadData0
      (figsOf (plot_trajectories np0 (App.initialModel run2 loadData0)
        true true 200 true 0))
      (ctrOf (plot_trajectories np0 (App.initialModel run2 loadData0)
        true true 200 true 0)) (by rfl)).1,
   (C5_document_tree np0 run2 loadData0
      (figsOf (plot_trajectories np0 (App.initialModel run2 loadData0)
        true true 200 true 0))
      (ctrOf (plot_trajectories np0 (App.initialModel run2 loadData0)
        true true 200 true 0)) (by rfl)).2.2.2.1⟩
